import Mathlib

/-!
Shallow embedding of the ultrasound CAN node (`src/main.c`).

The node converts HC-SR04 echo edge events into distance measurements and
publishes them, plus a 1 Hz heartbeat, through the libcanard transmit queue.
Machine integers are modelled as `Nat`/`Int` with explicit reduction
mod 2^32 / 2^8 where C overflow semantics matter; the C `double`
arithmetic of the distance computation is modelled exactly over `ℚ`
(the claims' stated 1e-9 relative tolerance absorbs binary64 rounding,
which is below 1e-15 relative for these magnitudes).
-/

namespace UltrasoundNode

/-- pigpio level constant for a falling edge / logical low. -/
def PI_OFF : Nat := 0

/-- pigpio level constant for a rising edge / logical high. -/
def PI_ON : Nat := 1

/-- `static const uint16_t HeartbeatSubjectID = 32085;` (main.c line 29). -/
def HeartbeatSubjectID : Nat := 32085

/-- `static const uint16_t UltrasoundMessageSubjectID = 1610;` (main.c line 30). -/
def UltrasoundMessageSubjectID : Nat := 1610

/-- libcanard `CanardPriorityNominal` (value 4 in the library's priority enum). -/
def CanardPriorityNominal : Nat := 4

/-- A transfer payload: either raw bytes (heartbeat) or the exact rational
value handed to the float32 serializer (distance).  The byte-level IEEE-754
serialization of the distance is modelled separately (`canardDSDLSetF32`). -/
inductive Payload where
  | bytes : List Nat → Payload
  | f32 : ℚ → Payload
deriving DecidableEq

/-- The fields of `CanardTransfer` that the node sets (main.c lines 60-68,
85-93); `remote_node_id` is always unset and `transfer_kind` always Message,
so they are omitted. -/
structure Transfer where
  priority : Nat
  port_id : Nat
  transfer_id : Nat
  payload : Payload
deriving DecidableEq

/-- Process-wide mutable state of the two publish operations: the two
`static CanardTransferID transfer_id` counters (uint8, mod 256) and the
cumulative sequence of transfers successfully pushed into the libcanard
transmit queue. -/
structure NodeState where
  hb_transfer_id : Nat
  us_transfer_id : Nat
  txQueue : List Transfer
deriving DecidableEq

/-- Process start: C zero-initializes the static counters and the queue is empty. -/
def NodeState.init : NodeState := ⟨0, 0, []⟩

/-- Modelled from the spec: `canardTxPush` (bus-protocol library, vendored
outside `src/`) appends the transfer to the transmit queue on success and
may fail (e.g. out of memory), in which case the publish is dropped.  The
caller ignores the returned status; `ok` is the success oracle. -/
def canardTxPush (n : NodeState) (ok : Bool) (t : Transfer) : NodeState :=
  if ok then { n with txQueue := n.txQueue ++ [t] } else n

/-- The 7-byte heartbeat payload of `publishHeartbeat` (main.c lines 51-59):
uptime as 4 little-endian bytes, then three zero bytes.
`(uint8_t)(uptime >> 8*i)` is `uptime / 2^(8*i) % 256`. -/
def heartbeatPayload (uptime : Nat) : List Nat :=
  [uptime % 256, uptime / 2 ^ 8 % 256, uptime / 2 ^ 16 % 256, uptime / 2 ^ 24 % 256, 0, 0, 0]

/-- Little-endian decode of bytes 0-3 of a payload. -/
def decodeLE4 (bs : List Nat) : Nat :=
  bs.getD 0 0 + 2 ^ 8 * bs.getD 1 0 + 2 ^ 16 * bs.getD 2 0 + 2 ^ 24 * bs.getD 3 0

/-- `publishHeartbeat` (main.c lines 48-71): build the transfer with the
current counter value, increment the uint8 counter, then attempt the push.
The increment happens whether or not the push succeeds. -/
def publishHeartbeat (n : NodeState) (ok : Bool) (uptime : Nat) : NodeState :=
  let t : Transfer :=
    ⟨CanardPriorityNominal, HeartbeatSubjectID, n.hb_transfer_id,
      Payload.bytes (heartbeatPayload uptime)⟩
  canardTxPush { n with hb_transfer_id := (n.hb_transfer_id + 1) % 256 } ok t

/-- `publishUltrasoundDistance` (main.c lines 77-96): serialize the distance
(as float32) into the payload, build the transfer with the current counter
value, increment the uint8 counter, then attempt the push. -/
def publishUltrasoundDistance (n : NodeState) (ok : Bool) (distance : ℚ) : NodeState :=
  let t : Transfer :=
    ⟨CanardPriorityNominal, UltrasoundMessageSubjectID, n.us_transfer_id,
      Payload.f32 distance⟩
  canardTxPush { n with us_transfer_id := (n.us_transfer_id + 1) % 256 } ok t

/-! ### Echo handler (`ultrasoundEcho`, main.c lines 105-130) -/

/-- The two `static uint32_t` variables of `ultrasoundEcho`:
`startTick` (tick of the last rising edge) and `firstTick`
(latched tick of the first event ever seen). -/
structure EchoState where
  startTick : Nat
  firstTick : Nat
deriving DecidableEq

/-- C zero-initializes the two static tick variables. -/
def EchoState.init : EchoState := ⟨0, 0⟩

/-- One GPIO edge event as delivered by pigpio: the level after the edge and
the microsecond tick (uint32, wrapping).  The gpio number is constant
(ECHO_PIN) and unused by the handler, so it is omitted. -/
structure EdgeEvent where
  level : Nat
  tick : Nat
deriving DecidableEq

/-- uint32 subtraction `a - b` with wraparound, for `a, b` reduced mod 2^32. -/
def u32sub (a b : Nat) : Nat := (a % 2 ^ 32 + 2 ^ 32 - b % 2 ^ 32) % 2 ^ 32

/-- Conversion of a uint32 value to C `int` (two's-complement int32). -/
def toInt32 (x : Nat) : Int :=
  if x % 2 ^ 32 < 2 ^ 31 then (x % 2 ^ 32 : Nat) else (x % 2 ^ 32 : Nat) - 2 ^ 32

/-- `int diffTick = tick - startTick;` — the uint32 difference wraps mod 2^32
and is then narrowed to `int`. -/
def diffTickOf (tick startTick : Nat) : Int := toInt32 (u32sub tick startTick)

/-- The double literal `0.0343` (speed of sound in cm/µs), exact. -/
def speedFactor : ℚ := 343 / 10000

/-- `distanceCm = (diffTick / 2) * 0.0343;` — `diffTick / 2` is C `int`
division (truncation toward zero), then the quotient is multiplied by the
double `0.0343`. -/
def distanceOf (diffTick : Int) : ℚ := ((Int.tdiv diffTick 2 : Int) : ℚ) * speedFactor

/-- `ultrasoundEcho` (main.c lines 105-130): latch `firstTick` on the first
event, record `startTick` on a rising edge, and on a falling edge compute
the distance from `tick - startTick` and publish it unconditionally — there
is no armed/disarmed guard.  `ok` is the enqueue-success oracle threaded to
`canardTxPush`. -/
def ultrasoundEcho (s : EchoState) (n : NodeState) (ok : Bool) (e : EdgeEvent) :
    EchoState × NodeState :=
  let s1 := if s.firstTick = 0 then { s with firstTick := e.tick } else s
  if e.level = PI_ON then
    ({ s1 with startTick := e.tick }, n)
  else if e.level = PI_OFF then
    (s1, publishUltrasoundDistance n ok (distanceOf (diffTickOf e.tick s1.startTick)))
  else
    (s1, n)

/-- Run the echo handler over a sequence of edge events, each paired with
its enqueue-success oracle value. -/
def runEcho (sn : EchoState × NodeState) (evs : List (Bool × EdgeEvent)) :
    EchoState × NodeState :=
  evs.foldl (fun sn oe => ultrasoundEcho sn.1 sn.2 oe.1 oe.2) sn

/-! ### Transmit-queue drain loop (main.c lines 195-202) -/

/-- Result of one run of the drain loop: the remaining transmit queue, the
frames freed (in order), and the frames attempted on the SocketCAN socket. -/
structure DrainResult where
  txQueue : List Transfer
  freed : List Transfer
  socketAttempts : List Transfer
deriving DecidableEq

/-- The drain loop of `main` (lines 195-202): `canardTxPeek`; while a frame
is present, `socketcanPush` it (the return status is cast to void),
`canardTxPop`, `free` the frame, and peek again.  `pushOk` is the socket
push outcome oracle; the code never inspects it. -/
def drainTxQueue (q : List Transfer) (pushOk : Transfer → Bool) : DrainResult :=
  match q with
  | [] => ⟨[], [], []⟩
  | f :: rest =>
    let r := drainTxQueue rest pushOk
    ⟨r.txQueue, f :: r.freed, f :: r.socketAttempts⟩

/-! ### DSDL float32 serialization (`canardDSDLSetF32`) -/

/-- Little-endian byte split of a uint32 bit pattern. -/
def u32LEBytes (bits : Nat) : List Nat :=
  [bits % 256, bits / 2 ^ 8 % 256, bits / 2 ^ 16 % 256, bits / 2 ^ 24 % 256]

/-- Modelled from the spec: `canardDSDLSetF32` (in `canard_dsdl.c`, a vendored
library file not under `src/`) writes the IEEE-754 single-precision
little-endian encoding of the value into the first 4 payload bytes.  The
value is given here by its 32-bit pattern. -/
def canardDSDLSetF32 (bits : Nat) : List Nat := u32LEBytes bits

/-- Sign bit of an IEEE-754 single-precision pattern. -/
def f32Sign (bits : Nat) : Nat := bits / 2 ^ 31 % 2

/-- Biased exponent field of an IEEE-754 single-precision pattern. -/
def f32Exp (bits : Nat) : Nat := bits / 2 ^ 23 % 2 ^ 8

/-- Fraction field of an IEEE-754 single-precision pattern. -/
def f32Frac (bits : Nat) : Nat := bits % 2 ^ 23

/-- Exact rational value of a normal IEEE-754 single-precision pattern:
(-1)^sign * (1 + frac/2^23) * 2^(exp - 127). -/
def f32Value (bits : Nat) : ℚ :=
  (if f32Sign bits = 1 then (-1 : ℚ) else 1) * (1 + (f32Frac bits : ℚ) / 2 ^ 23) *
    (2 : ℚ) ^ ((f32Exp bits : ℤ) - 127)

/-! ### Publish-call sequences (transfer-id counters) -/

/-- One invocation of a publish operation, with its enqueue outcome. -/
inductive PubCall where
  | hb : Bool → Nat → PubCall
  | us : Bool → ℚ → PubCall
deriving DecidableEq

/-- Dispatch one publish call on the node state. -/
def pubStep (n : NodeState) (c : PubCall) : NodeState :=
  match c with
  | .hb ok u => publishHeartbeat n ok u
  | .us ok d => publishUltrasoundDistance n ok d

/-- Run a sequence of publish calls. -/
def runPubs (n : NodeState) (cs : List PubCall) : NodeState := cs.foldl pubStep n

/-- Number of heartbeat publish calls in a sequence. -/
def countHb (cs : List PubCall) : Nat :=
  (cs.filter fun c => match c with | .hb _ _ => true | .us _ _ => false).length

/-- Number of distance publish calls in a sequence. -/
def countUs (cs : List PubCall) : Nat :=
  (cs.filter fun c => match c with | .hb _ _ => false | .us _ _ => true).length

/-! ### Main-loop heartbeat scheduling (main.c lines 184-192) -/

/-- The main loop's scheduling state: `next_1hz_at` and the node state.
(`boot_ts` is a fixed parameter of the run.) -/
structure LoopState where
  next_1hz_at : Int
  node : NodeState
deriving DecidableEq

/-- One iteration of the heartbeat check in the main loop body
(lines 188-192): if `next_1hz_at < time(NULL)` then increment `next_1hz_at`
and publish a heartbeat with uptime `time(NULL) - boot_ts`.  `now` is the
wall-clock second observed by this iteration (both `time(NULL)` calls of an
iteration are modelled as observing the same second).  The enqueue is taken
to succeed (no allocation failure) in the wall-clock scenarios. -/
def loopIter (boot : Int) (s : LoopState) (now : Int) : LoopState :=
  if s.next_1hz_at < now then
    ⟨s.next_1hz_at + 1, publishHeartbeat s.node true (now - boot).toNat⟩
  else s

/-- Run the main loop's heartbeat check over the sequence of wall-clock
seconds observed by successive iterations. -/
def runLoop (boot : Int) (s : LoopState) (times : List Int) : LoopState :=
  times.foldl (loopIter boot) s

/-- Number of heartbeat transfers in the enqueue log. -/
def hbCount (n : NodeState) : Nat :=
  (n.txQueue.filter fun t => t.port_id == HeartbeatSubjectID).length

/-- Number of distance transfers in the enqueue log. -/
def usCount (n : NodeState) : Nat :=
  (n.txQueue.filter fun t => t.port_id == UltrasoundMessageSubjectID).length

/-- Spec-side distance formula with real (field) division of `elapsed` by 2,
for comparison with the code's integer division (refinement reading of
`distance_cm(elapsed) = (elapsed/2)*0.0343`). -/
def specDistanceReal (elapsed : Nat) : ℚ := ((elapsed : ℚ) / 2) * speedFactor

/-! ### Helper lemmas -/

theorem echoLatch_startTick (s : EchoState) (t : Nat) :
    (if s.firstTick = 0 then { s with firstTick := t } else s).startTick = s.startTick := by
  split <;> rfl

theorem ultrasoundEcho_low (s : EchoState) (n : NodeState) (ok : Bool) (t : Nat) :
    (ultrasoundEcho s n ok ⟨PI_OFF, t⟩).2 =
      publishUltrasoundDistance n ok (distanceOf (diffTickOf t s.startTick)) := by
  simp [ultrasoundEcho, PI_ON, PI_OFF, echoLatch_startTick]

theorem ultrasoundEcho_high_startTick (s : EchoState) (n : NodeState) (ok : Bool) (t : Nat) :
    (ultrasoundEcho s n ok ⟨PI_ON, t⟩).1.startTick = t ∧
    (ultrasoundEcho s n ok ⟨PI_ON, t⟩).2 = n := by
  simp [ultrasoundEcho, PI_ON]

theorem tdiv_ofNat_two (m : Nat) : Int.tdiv (m : Int) 2 = ((m / 2 : Nat) : Int) := rfl

theorem diffTickOf_eq_of_small (start tick : Nat) (h : u32sub tick start < 2 ^ 31) :
    diffTickOf tick start = ((u32sub tick start : Nat) : Int) := by
  unfold diffTickOf toInt32
  rw [Nat.mod_eq_of_lt (show u32sub tick start < 2 ^ 32 by omega), if_pos h]

theorem u32sub_of_le (t1 t2 : Nat) (h1 : t1 ≤ t2) (h2 : t2 < 2 ^ 32) :
    u32sub t2 t1 = t2 - t1 := by
  unfold u32sub
  omega

theorem hbCount_publishHeartbeat (n : NodeState) (u : Nat) :
    hbCount (publishHeartbeat n true u) = hbCount n + 1 := by
  simp [hbCount, publishHeartbeat, canardTxPush, HeartbeatSubjectID]

theorem usCount_publishHeartbeat (n : NodeState) (u : Nat) :
    usCount (publishHeartbeat n true u) = usCount n := by
  simp [usCount, publishHeartbeat, canardTxPush, HeartbeatSubjectID, UltrasoundMessageSubjectID]

theorem loopIter_fires (boot : Int) (s : LoopState) (now : Int) (h : s.next_1hz_at < now) :
    loopIter boot s now = ⟨s.next_1hz_at + 1, publishHeartbeat s.node true (now - boot).toNat⟩ := by
  simp [loopIter, h]

theorem loopIter_noFire (boot : Int) (s : LoopState) (now : Int) (h : ¬ s.next_1hz_at < now) :
    loopIter boot s now = s := by
  simp [loopIter, h]

theorem runLoop_append (boot : Int) (s : LoopState) (l1 l2 : List Int) :
    runLoop boot s (l1 ++ l2) = runLoop boot (runLoop boot s l1) l2 :=
  List.foldl_append _ _ _ _

theorem runLoop_cons (boot : Int) (s : LoopState) (t : Int) (l : List Int) :
    runLoop boot s (t :: l) = runLoop boot (loopIter boot s t) l := rfl

theorem runLoop_replicate_noFire (boot t : Int) (s : LoopState) (h : ¬ s.next_1hz_at < t) :
    ∀ k : Nat, runLoop boot s (List.replicate k t) = s := by
  intro k
  induction k with
  | zero => rfl
  | succ k ih => rw [List.replicate_succ, runLoop_cons, loopIter_noFire boot s t h, ih]

theorem runLoop_replicate_catchup (boot T : Int) :
    ∀ (k : Nat) (d : Int) (nd : NodeState), d + (k : Int) ≤ T →
      (runLoop boot ⟨d, nd⟩ (List.replicate k T)).next_1hz_at = d + (k : Int) ∧
      hbCount (runLoop boot ⟨d, nd⟩ (List.replicate k T)).node = hbCount nd + k := by
  intro k
  induction k with
  | zero => intro d nd _; simp [runLoop]
  | succ k ih =>
    intro d nd h
    have hd : d < T := by push_cast at h; omega
    rw [List.replicate_succ, runLoop_cons, loopIter_fires boot ⟨d, nd⟩ T hd]
    have hih := ih (d + 1) (publishHeartbeat nd true (T - boot).toNat)
      (by push_cast at h ⊢; omega)
    rw [hih.1, hih.2, hbCount_publishHeartbeat]
    constructor
    · push_cast; ring
    · omega

theorem runPubs_counters (cs : List PubCall) :
    ∀ n : NodeState, n.hb_transfer_id < 256 → n.us_transfer_id < 256 →
      (runPubs n cs).hb_transfer_id = (n.hb_transfer_id + countHb cs) % 256 ∧
      (runPubs n cs).us_transfer_id = (n.us_transfer_id + countUs cs) % 256 := by
  induction cs with
  | nil =>
    intro n h1 h2
    constructor <;> simp [runPubs, countHb, countUs] <;> omega
  | cons c rest ih =>
    intro n h1 h2
    cases c with
    | hb ok u =>
      have step : runPubs n (PubCall.hb ok u :: rest) =
          runPubs (publishHeartbeat n ok u) rest := rfl
      have hcnt : (publishHeartbeat n ok u).hb_transfer_id = (n.hb_transfer_id + 1) % 256 ∧
          (publishHeartbeat n ok u).us_transfer_id = n.us_transfer_id := by
        cases ok <;> simp [publishHeartbeat, canardTxPush]
      have hih := ih (publishHeartbeat n ok u) (by rw [hcnt.1]; omega) (by rw [hcnt.2]; omega)
      rw [step, hih.1, hih.2, hcnt.1, hcnt.2]
      simp only [countHb, countUs, List.filter_cons]
      constructor <;> simp <;> omega
    | us ok d =>
      have step : runPubs n (PubCall.us ok d :: rest) =
          runPubs (publishUltrasoundDistance n ok d) rest := rfl
      have hcnt : (publishUltrasoundDistance n ok d).us_transfer_id =
            (n.us_transfer_id + 1) % 256 ∧
          (publishUltrasoundDistance n ok d).hb_transfer_id = n.hb_transfer_id := by
        cases ok <;> simp [publishUltrasoundDistance, canardTxPush]
      have hih := ih (publishUltrasoundDistance n ok d) (by rw [hcnt.2]; omega)
        (by rw [hcnt.1]; omega)
      rw [step, hih.1, hih.2, hcnt.1, hcnt.2]
      simp only [countHb, countUs, List.filter_cons]
      constructor <;> simp <;> omega

theorem ultrasoundEcho_firstTick_indep (s1 s2 : EchoState) (n : NodeState) (ok : Bool)
    (e : EdgeEvent) (h : s1.startTick = s2.startTick) :
    (ultrasoundEcho s1 n ok e).1.startTick = (ultrasoundEcho s2 n ok e).1.startTick ∧
    (ultrasoundEcho s1 n ok e).2 = (ultrasoundEcho s2 n ok e).2 := by
  simp only [ultrasoundEcho]
  split_ifs <;> simp_all

theorem runEcho_firstTick_indep (evs : List (Bool × EdgeEvent)) :
    ∀ (s1 s2 : EchoState) (n : NodeState), s1.startTick = s2.startTick →
      (runEcho (s1, n) evs).1.startTick = (runEcho (s2, n) evs).1.startTick ∧
      (runEcho (s1, n) evs).2 = (runEcho (s2, n) evs).2 := by
  induction evs with
  | nil => exact fun s1 s2 n h => ⟨h, rfl⟩
  | cons oe rest ih =>
    intro s1 s2 n h
    have hstep := ultrasoundEcho_firstTick_indep s1 s2 n oe.1 oe.2 h
    have hrun : ∀ (s : EchoState) (m : NodeState),
        runEcho (s, m) (oe :: rest) = runEcho (ultrasoundEcho s m oe.1 oe.2) rest := by
      intro s m; rfl
    rw [hrun s1 n, hrun s2 n,
      show ultrasoundEcho s1 n oe.1 oe.2 =
        ((ultrasoundEcho s1 n oe.1 oe.2).1, (ultrasoundEcho s1 n oe.1 oe.2).2) from rfl,
      show ultrasoundEcho s2 n oe.1 oe.2 =
        ((ultrasoundEcho s2 n oe.1 oe.2).1, (ultrasoundEcho s2 n oe.1 oe.2).2) from rfl,
      hstep.2]
    exact ih _ _ _ hstep.1

/-! ### Claim theorems -/

/-- Claim C1 (code bug): the claim says a LOW edge with no preceding HIGH edge
in the current cycle never causes a distance transfer to be enqueued.  The
code has no armed flag: on the very first event being a LOW edge (tick 500),
`ultrasoundEcho` computes the distance from the stale zero `startTick`
(elapsed 500, distance 8.575 cm = 343/40) and enqueues it. -/
theorem c1_low_without_high_still_publishes :
    (runEcho (EchoState.init, NodeState.init) [(true, ⟨PI_OFF, 500⟩)]).2.txQueue =
      [⟨CanardPriorityNominal, UltrasoundMessageSubjectID, 0, Payload.f32 (343 / 40)⟩] := by
  have hrun : (runEcho (EchoState.init, NodeState.init) [(true, ⟨PI_OFF, 500⟩)]).2 =
      publishUltrasoundDistance NodeState.init true
        (distanceOf (diffTickOf 500 EchoState.init.startTick)) :=
    ultrasoundEcho_low EchoState.init NodeState.init true 500
  have h1 : diffTickOf 500 EchoState.init.startTick = 500 := by decide
  have h2 : Int.tdiv (500 : Int) 2 = 250 := by decide
  have hd : distanceOf (diffTickOf 500 EchoState.init.startTick) = 343 / 40 := by
    unfold distanceOf
    rw [h1, h2]
    norm_num [speedFactor]
  rw [hrun, hd]
  simp [publishUltrasoundDistance, canardTxPush, NodeState.init]

/-- Claim C4: after one run of the drain loop the transmit queue is empty,
every frame that was present has been freed exactly once, and the result does
not depend on the socket-push outcomes. -/
theorem c4_drain_empties_and_frees_once (q : List Transfer)
    (pushOk pushOk' : Transfer → Bool) :
    (drainTxQueue q pushOk).txQueue = [] ∧
    (drainTxQueue q pushOk).freed = q ∧
    (∀ f : Transfer, (drainTxQueue q pushOk).freed.count f = q.count f) ∧
    drainTxQueue q pushOk = drainTxQueue q pushOk' := by
  induction q with
  | nil => exact ⟨rfl, rfl, fun f => rfl, rfl⟩
  | cons f rest ih =>
    refine ⟨ih.1, ?_, ?_, ?_⟩
    · simp [drainTxQueue, ih.2.1]
    · intro g
      simp [drainTxQueue, List.count_cons, (ih.2.2.1 g)]
    · simp [drainTxQueue, ih.2.2.2]

/-- Claim C5: the heartbeat payload is exactly 7 bytes, the uptime is the
little-endian u32 in bytes 0-3, bytes 4-6 are zero, and `publishHeartbeat`
enqueues exactly this payload; in particular uptime 3723 round-trips. -/
theorem c5_heartbeat_payload_layout (n : NodeState) (uptime : Nat)
    (h : uptime < 2 ^ 32) :
    (heartbeatPayload uptime).length = 7 ∧
    decodeLE4 (heartbeatPayload uptime) = uptime ∧
    (heartbeatPayload uptime).getD 4 0 = 0 ∧
    (heartbeatPayload uptime).getD 5 0 = 0 ∧
    (heartbeatPayload uptime).getD 6 0 = 0 ∧
    (publishHeartbeat n true uptime).txQueue =
      n.txQueue ++ [⟨CanardPriorityNominal, HeartbeatSubjectID, n.hb_transfer_id,
        Payload.bytes (heartbeatPayload uptime)⟩] := by
    refine ⟨rfl, ?_, rfl, rfl, rfl, ?_⟩
    · simp [heartbeatPayload, decodeLE4]
      omega
    · simp [publishHeartbeat, canardTxPush]

/-- Claim C5 witness: uptime 3723 encodes and decodes back to 3723. -/
theorem c5_heartbeat_payload_layout_witness :
    decodeLE4 (heartbeatPayload 3723) = 3723 :=
  (c5_heartbeat_payload_layout NodeState.init 3723 (by norm_num)).2.1

/-- Claim C6 (float serializer modelled from the spec, since `canard_dsdl.c`
is a vendored library file outside `src/`): the distance payload is the 4-byte
little-endian IEEE-754 single-precision encoding; byte-serializing any 32-bit
pattern and decoding bytes 0-3 round-trips, and the pattern 0x418C0000
(= 1099694080), whose single-precision value is 17.5, round-trips to 17.5. -/
theorem c6_f32_payload_roundtrip (bits : Nat) (h : bits < 2 ^ 32) :
    (canardDSDLSetF32 bits).length = 4 ∧
    decodeLE4 (canardDSDLSetF32 bits) = bits ∧
    f32Value 1099694080 = 35 / 2 ∧
    f32Value (decodeLE4 (canardDSDLSetF32 1099694080)) = 35 / 2 := by
  have hval : f32Value 1099694080 = 35 / 2 := by
    norm_num [f32Value, f32Sign, f32Exp, f32Frac]
  have hdec : decodeLE4 (canardDSDLSetF32 1099694080) = 1099694080 := by decide
  refine ⟨rfl, ?_, hval, by rw [hdec, hval]⟩
  simp [canardDSDLSetF32, u32LEBytes, decodeLE4]
  omega

/-- Claim C6 witness: instantiation at the pattern of 17.5. -/
theorem c6_f32_payload_roundtrip_witness :
    f32Value (decodeLE4 (canardDSDLSetF32 1099694080)) = 35 / 2 :=
  (c6_f32_payload_roundtrip 1099694080 (by norm_num)).2.2.2

/-- Claim C7 counterexample: the heartbeat transfer-id counter is incremented
by `publishHeartbeat` even when the enqueue fails (`canardTxPush` returns
failure and nothing is appended), so it is not "incremented per successful
enqueue". -/
theorem c7_counter_bumps_on_failed_enqueue :
    (publishHeartbeat NodeState.init false 5).hb_transfer_id = 1 ∧
    (publishHeartbeat NodeState.init false 5).txQueue = [] := by
  decide

/-- Claim C7 (amended): the two transfer-id counters are initialized to 0 at
process start, and each is incremented by exactly 1 (mod 256) per publish
call of its own subject — regardless of enqueue success — and is unaffected
by publish calls of the other subject, never reset. -/
theorem c7_transfer_id_counters (n : NodeState) (cs : List PubCall)
    (h1 : n.hb_transfer_id < 256) (h2 : n.us_transfer_id < 256) :
    NodeState.init.hb_transfer_id = 0 ∧
    NodeState.init.us_transfer_id = 0 ∧
    (runPubs n cs).hb_transfer_id = (n.hb_transfer_id + countHb cs) % 256 ∧
    (runPubs n cs).us_transfer_id = (n.us_transfer_id + countUs cs) % 256 :=
  ⟨rfl, rfl, (runPubs_counters cs n h1 h2).1, (runPubs_counters cs n h1 h2).2⟩

/-- Claim C7 witness: two heartbeat publishes (one failed) and one distance
publish leave the heartbeat counter at 2 and the distance counter at 1. -/
theorem c7_transfer_id_counters_witness :
    (runPubs NodeState.init
        [PubCall.hb true 0, PubCall.us false (7 : ℚ), PubCall.hb false 2]).hb_transfer_id =
      (0 + 2) % 256 :=
  (c7_transfer_id_counters NodeState.init
    [PubCall.hb true 0, PubCall.us false (7 : ℚ), PubCall.hb false 2]
    (by norm_num [NodeState.init]) (by norm_num [NodeState.init])).2.2.1

/-- Claim C10: the published output does not depend on the `firstTick`
latch — two runs of the echo handler on the same edge-event sequence from
states that agree on `startTick` (differing only in `firstTick`) produce
identical node states, hence identical enqueued transfers. -/
theorem c10_output_indep_of_firstTick (evs : List (Bool × EdgeEvent))
    (s1 s2 : EchoState) (n : NodeState) (h : s1.startTick = s2.startTick) :
    (runEcho (s1, n) evs).2 = (runEcho (s2, n) evs).2 :=
  (runEcho_firstTick_indep evs s1 s2 n h).2

/-- Claim C10 witness: a full HIGH/LOW cycle from two states that differ only
in `firstTick` yields the same published transfers. -/
theorem c10_output_indep_of_firstTick_witness :
    (runEcho (⟨7, 0⟩, NodeState.init) [(true, ⟨1, 1000⟩), (true, ⟨0, 1100⟩)]).2 =
    (runEcho (⟨7, 99⟩, NodeState.init) [(true, ⟨1, 1000⟩), (true, ⟨0, 1100⟩)]).2 :=
  c10_output_indep_of_firstTick [(true, ⟨1, 1000⟩), (true, ⟨0, 1100⟩)]
    ⟨7, 0⟩ ⟨7, 99⟩ NodeState.init rfl

/-- Claim C2 counterexample: with a HIGH at tick 1000 and a LOW at tick 1101
(elapsed 101), the code enqueues distance (101 tdiv 2) * 0.0343 = 1.715 cm,
which differs from the claimed (101/2)*0.0343 = 1.73215 cm by far more than
1e-9 relative; the code's distance is also not strictly increasing in
elapsed (elapsed 100 and 101 give the same value). -/
theorem c2_distance_counterexample :
    (runEcho (EchoState.init, NodeState.init)
        [(true, ⟨PI_ON, 1000⟩), (true, ⟨PI_OFF, 1101⟩)]).2.txQueue =
      [⟨CanardPriorityNominal, UltrasoundMessageSubjectID, 0, Payload.f32 (343 / 200)⟩] ∧
    ¬ |(343 / 200 : ℚ) - specDistanceReal 101| ≤ specDistanceReal 101 * (1 / 10 ^ 9) ∧
    distanceOf 100 = distanceOf 101 := by
  have hstep1 : ultrasoundEcho EchoState.init NodeState.init true ⟨PI_ON, 1000⟩ =
      (⟨1000, 1000⟩, NodeState.init) := by decide
  have hfold : runEcho (EchoState.init, NodeState.init)
      [(true, ⟨PI_ON, 1000⟩), (true, ⟨PI_OFF, 1101⟩)] =
      ultrasoundEcho (⟨1000, 1000⟩ : EchoState) NodeState.init true ⟨PI_OFF, 1101⟩ := by
    show ultrasoundEcho (ultrasoundEcho EchoState.init NodeState.init true ⟨PI_ON, 1000⟩).1
        (ultrasoundEcho EchoState.init NodeState.init true ⟨PI_ON, 1000⟩).2 true ⟨PI_OFF, 1101⟩ =
      _
    rw [hstep1]
  have h1 : diffTickOf 1101 (⟨1000, 1000⟩ : EchoState).startTick = 101 := by decide
  have h2 : Int.tdiv (101 : Int) 2 = 50 := by decide
  have hd : distanceOf (diffTickOf 1101 (⟨1000, 1000⟩ : EchoState).startTick) = 343 / 200 := by
    unfold distanceOf
    rw [h1, h2]
    norm_num [speedFactor]
  refine ⟨?_, ?_, ?_⟩
  · rw [hfold, ultrasoundEcho_low _ _ true 1101, hd]
    simp [publishUltrasoundDistance, canardTxPush, NodeState.init]
  · have habs : |(343 / 200 : ℚ) - specDistanceReal 101| = 343 / 20000 := by
      rw [show (343 / 200 : ℚ) - specDistanceReal 101 = -(343 / 20000) from by
        norm_num [specDistanceReal, speedFactor]]
      rw [abs_neg]
      exact abs_of_nonneg (by norm_num)
    rw [habs]
    norm_num [specDistanceReal, speedFactor]
  · have h100 : Int.tdiv (100 : Int) 2 = 50 := by decide
    unfold distanceOf
    rw [h2, h100]

/-- Claim C2 (amended): for t1 < t2 within a single 32-bit wrap (elapsed
below 2^31), a HIGH at t1 followed by a LOW at t2 enqueues exactly one
distance transfer whose distance is ((t2 - t1) div 2) * 0.0343 — the
elapsed microseconds halved with C integer (truncating) division — exactly,
in exact rational arithmetic; the distance is monotone non-decreasing in
elapsed, and elapsed 100 gives exactly 1.715 cm. -/
theorem c2_distance_formula (s : EchoState) (n : NodeState) (t1 t2 : Nat)
    (h1 : t1 < t2) (h2 : t2 < 2 ^ 32) (h3 : t2 - t1 < 2 ^ 31) :
    (runEcho (s, n) [(true, ⟨PI_ON, t1⟩), (true, ⟨PI_OFF, t2⟩)]).2.txQueue =
      n.txQueue ++ [⟨CanardPriorityNominal, UltrasoundMessageSubjectID, n.us_transfer_id,
        Payload.f32 ((((t2 - t1) / 2 : Nat) : ℚ) * speedFactor)⟩] ∧
    (∀ e1 e2 : Nat, e1 ≤ e2 → distanceOf (e1 : Int) ≤ distanceOf (e2 : Int)) ∧
    (((100 / 2 : Nat) : ℚ) * speedFactor = 343 / 200) := by
  have hh := ultrasoundEcho_high_startTick s n true t1
  have hfold : runEcho (s, n) [(true, ⟨PI_ON, t1⟩), (true, ⟨PI_OFF, t2⟩)] =
      ultrasoundEcho (ultrasoundEcho s n true ⟨PI_ON, t1⟩).1
        (ultrasoundEcho s n true ⟨PI_ON, t1⟩).2 true ⟨PI_OFF, t2⟩ := rfl
  have hu : u32sub t2 t1 = t2 - t1 := u32sub_of_le t1 t2 (le_of_lt h1) h2
  have hdt : diffTickOf t2 t1 = ((t2 - t1 : Nat) : Int) := by
    rw [diffTickOf_eq_of_small t1 t2 (by rw [hu]; exact h3), hu]
  have hdist : distanceOf (diffTickOf t2 t1) = (((t2 - t1) / 2 : Nat) : ℚ) * speedFactor := by
    rw [hdt]
    unfold distanceOf
    rw [tdiv_ofNat_two]
    norm_cast
  refine ⟨?_, ?_, by norm_num [speedFactor]⟩
  · rw [hfold, ultrasoundEcho_low _ _ true t2, hh.1, hh.2, hdist]
    simp [publishUltrasoundDistance, canardTxPush]
  · intro e1 e2 hle
    unfold distanceOf
    rw [tdiv_ofNat_two, tdiv_ofNat_two]
    have hq : (e1 / 2 : Nat) ≤ e2 / 2 := Nat.div_le_div_right hle
    exact mul_le_mul_of_nonneg_right (by exact_mod_cast hq) (by norm_num [speedFactor])

/-- Claim C2 witness: the HIGH 1000 / LOW 1100 cycle enqueues exactly the
1.715 cm transfer. -/
theorem c2_distance_formula_witness :
    (runEcho (EchoState.init, NodeState.init)
        [(true, ⟨PI_ON, 1000⟩), (true, ⟨PI_OFF, 1100⟩)]).2.txQueue =
      NodeState.init.txQueue ++ [⟨CanardPriorityNominal, UltrasoundMessageSubjectID,
        NodeState.init.us_transfer_id,
        Payload.f32 ((((1100 - 1000) / 2 : Nat) : ℚ) * speedFactor)⟩] :=
  (c2_distance_formula EchoState.init NodeState.init 1000 1100 (by norm_num) (by norm_num)
    (by norm_num)).1

/-- Claim C3 counterexample: a HIGH at tick 0 followed by a LOW at tick 2^31
has wrapping unsigned difference 2^31, but the code narrows `tick - startTick`
to C `int`, so the elapsed value actually used is -2^31 — negative and
unequal to the claimed mod-2^32 difference — and the handler publishes the
resulting negative distance. -/
theorem c3_elapsed_negative_counterexample :
    u32sub (2 ^ 31) 0 = 2 ^ 31 ∧
    diffTickOf (2 ^ 31) 0 = -(2 ^ 31) ∧
    diffTickOf (2 ^ 31) 0 ≠ ((u32sub (2 ^ 31) 0 : Nat) : Int) ∧
    (runEcho (EchoState.init, NodeState.init)
        [(true, ⟨PI_ON, 0⟩), (true, ⟨PI_OFF, 2 ^ 31⟩)]).2.txQueue =
      [⟨CanardPriorityNominal, UltrasoundMessageSubjectID, 0,
        Payload.f32 (((-(2 ^ 30) : Int) : ℚ) * speedFactor)⟩] := by
  have hstep1 : ultrasoundEcho EchoState.init NodeState.init true ⟨PI_ON, 0⟩ =
      (⟨0, 0⟩, NodeState.init) := by decide
  have hfold : runEcho (EchoState.init, NodeState.init)
      [(true, ⟨PI_ON, 0⟩), (true, ⟨PI_OFF, 2 ^ 31⟩)] =
      ultrasoundEcho (⟨0, 0⟩ : EchoState) NodeState.init true ⟨PI_OFF, 2 ^ 31⟩ := by
    show ultrasoundEcho (ultrasoundEcho EchoState.init NodeState.init true ⟨PI_ON, 0⟩).1
        (ultrasoundEcho EchoState.init NodeState.init true ⟨PI_ON, 0⟩).2 true ⟨PI_OFF, 2 ^ 31⟩ =
      _
    rw [hstep1]
  have h1 : diffTickOf (2 ^ 31) (⟨0, 0⟩ : EchoState).startTick = -(2 ^ 31) := by decide
  have h2 : Int.tdiv (-(2 ^ 31) : Int) 2 = -(2 ^ 30) := by decide
  have hd : distanceOf (diffTickOf (2 ^ 31) (⟨0, 0⟩ : EchoState).startTick) =
      ((-(2 ^ 30) : Int) : ℚ) * speedFactor := by
    unfold distanceOf
    rw [h1, h2]
  refine ⟨by decide, by decide, by decide, ?_⟩
  rw [hfold, ultrasoundEcho_low _ _ true (2 ^ 31), hd]
  simp [publishUltrasoundDistance, canardTxPush, NodeState.init]

/-- Claim C3 (amended): whenever the wrapping unsigned difference
(tick - start_tick) mod 2^32 is below 2^31 — which covers any realistic echo
width, including across a 32-bit timer overflow — the elapsed value the code
uses equals that wrapping difference, is non-negative, and the handler
enqueues the distance computed from it; in particular start 2^32-50 and
tick 50 give elapsed 100. -/
theorem c3_elapsed_wrapping (s : EchoState) (n : NodeState) (t1 t2 : Nat)
    (h3 : u32sub t2 t1 < 2 ^ 31) :
    diffTickOf t2 t1 = ((u32sub t2 t1 : Nat) : Int) ∧
    0 ≤ diffTickOf t2 t1 ∧
    (runEcho (s, n) [(true, ⟨PI_ON, t1⟩), (true, ⟨PI_OFF, t2⟩)]).2.txQueue =
      n.txQueue ++ [⟨CanardPriorityNominal, UltrasoundMessageSubjectID, n.us_transfer_id,
        Payload.f32 (distanceOf ((u32sub t2 t1 : Nat) : Int))⟩] ∧
    u32sub 50 (2 ^ 32 - 50) = 100 := by
  have hh := ultrasoundEcho_high_startTick s n true t1
  have hfold : runEcho (s, n) [(true, ⟨PI_ON, t1⟩), (true, ⟨PI_OFF, t2⟩)] =
      ultrasoundEcho (ultrasoundEcho s n true ⟨PI_ON, t1⟩).1
        (ultrasoundEcho s n true ⟨PI_ON, t1⟩).2 true ⟨PI_OFF, t2⟩ := rfl
  have hdt := diffTickOf_eq_of_small t1 t2 h3
  refine ⟨hdt, by rw [hdt]; exact Int.natCast_nonneg _, ?_, by decide⟩
  rw [hfold, ultrasoundEcho_low _ _ true t2, hh.1, hh.2, hdt]
  simp [publishUltrasoundDistance, canardTxPush]

/-- Claim C3 witness: a timer overflow between HIGH (tick 2^32 - 50) and LOW
(tick 50) still yields elapsed 100. -/
theorem c3_elapsed_wrapping_witness :
    diffTickOf 50 (2 ^ 32 - 50) = ((u32sub 50 (2 ^ 32 - 50) : Nat) : Int) :=
  (c3_elapsed_wrapping EchoState.init NodeState.init (2 ^ 32 - 50) 50 (by decide)).1

/-- Claim C8 counterexample: boot at second 0 with next_due 0; the loop
stalls until second 3 and then iterates four times within that second.  The
code fires once per iteration until next_due catches up: three heartbeats
are enqueued after the stall, not exactly one as claimed. -/
theorem c8_stall_backfills :
    hbCount (runLoop 0 ⟨0, NodeState.init⟩ [0, 3, 3, 3, 3]).node = 3 ∧
    hbCount (runLoop 0 ⟨0, NodeState.init⟩ [0, 3, 3, 3, 3]).node ≠ 1 := by
  refine ⟨by decide, by decide⟩

/-- Claim C8 (amended): next_1hz_at advances by exactly one second on each
heartbeat emission and is unchanged on non-emitting iterations; after a
stall of k missed seconds the loop emits one heartbeat per iteration for the
next k iterations, backfilling the missed seconds, after which next_1hz_at
equals the current second and the schedule is resynchronized. -/
theorem c8_heartbeat_schedule (boot d T : Int) (nd : NodeState) (k : Nat)
    (hk : d + (k : Int) = T) :
    (∀ (s : LoopState) (now : Int), s.next_1hz_at < now →
        (loopIter boot s now).next_1hz_at = s.next_1hz_at + 1 ∧
        hbCount (loopIter boot s now).node = hbCount s.node + 1) ∧
    (∀ (s : LoopState) (now : Int), ¬ s.next_1hz_at < now →
        loopIter boot s now = s) ∧
    (runLoop boot ⟨d, nd⟩ (List.replicate k T)).next_1hz_at = T ∧
    hbCount (runLoop boot ⟨d, nd⟩ (List.replicate k T)).node = hbCount nd + k := by
  have hcat := runLoop_replicate_catchup boot T k d nd (le_of_eq hk)
  refine ⟨?_, loopIter_noFire boot, ?_, hcat.2⟩
  · intro s now h
    rw [loopIter_fires boot s now h]
    exact ⟨rfl, hbCount_publishHeartbeat s.node _⟩
  · rw [hcat.1, hk]

/-- Claim C8 witness: next_due 7, current second 10 — three iterations at
second 10 emit three heartbeats and resynchronize next_due to 10. -/
theorem c8_heartbeat_schedule_witness :
    (runLoop 5 ⟨7, NodeState.init⟩ (List.replicate 3 10)).next_1hz_at = 10 :=
  (c8_heartbeat_schedule 5 7 10 NodeState.init 3 (by norm_num)).2.2.1

/-- Claim C9: a 2.5-second run that starts at a second boundary — successive
iterations observe wall-clock second 0 (a times), then 1 (b ≥ 1 times), then
2 (c ≥ 1 times), with no edge events — enqueues exactly two heartbeat
transfers, with consecutive uptimes 1 and 2 (little-endian encoded), and no
distance transfer. -/
theorem c9_two_heartbeats (a b c : Nat) (hb1 : 1 ≤ b) (hc1 : 1 ≤ c) :
    (runLoop 0 ⟨0, NodeState.init⟩
        (List.replicate a 0 ++ (List.replicate b 1 ++ List.replicate c 2))).node.txQueue =
      [⟨CanardPriorityNominal, HeartbeatSubjectID, 0, Payload.bytes (heartbeatPayload 1)⟩,
       ⟨CanardPriorityNominal, HeartbeatSubjectID, 1, Payload.bytes (heartbeatPayload 2)⟩] ∧
    hbCount (runLoop 0 ⟨0, NodeState.init⟩
        (List.replicate a 0 ++ (List.replicate b 1 ++ List.replicate c 2))).node = 2 ∧
    usCount (runLoop 0 ⟨0, NodeState.init⟩
        (List.replicate a 0 ++ (List.replicate b 1 ++ List.replicate c 2))).node = 0 ∧
    decodeLE4 (heartbeatPayload 1) = 1 ∧ decodeLE4 (heartbeatPayload 2) = 2 := by
  obtain ⟨b', rfl⟩ : ∃ b', b = b' + 1 := ⟨b - 1, by omega⟩
  obtain ⟨c', rfl⟩ : ∃ c', c = c' + 1 := ⟨c - 1, by omega⟩
  rw [runLoop_append, runLoop_replicate_noFire 0 0 ⟨0, NodeState.init⟩ (by decide) a]
  rw [runLoop_append]
  rw [List.replicate_succ, runLoop_cons]
  rw [show loopIter 0 ⟨0, NodeState.init⟩ 1 =
      ⟨1, publishHeartbeat NodeState.init true 1⟩ from by decide]
  rw [runLoop_replicate_noFire 0 1 ⟨1, publishHeartbeat NodeState.init true 1⟩ (by decide) b']
  rw [List.replicate_succ, runLoop_cons]
  rw [show loopIter 0 ⟨1, publishHeartbeat NodeState.init true 1⟩ 2 =
      ⟨2, publishHeartbeat (publishHeartbeat NodeState.init true 1) true 2⟩ from by decide]
  rw [runLoop_replicate_noFire 0 2
    ⟨2, publishHeartbeat (publishHeartbeat NodeState.init true 1) true 2⟩ (by decide) c']
  exact ⟨by decide, by decide, by decide, rfl, rfl⟩

/-- Claim C9 witness: a concrete 2.5-second trajectory (2 iterations at
second 0, 3 at second 1, 3 at second 2) enqueues exactly 2 heartbeats. -/
theorem c9_two_heartbeats_witness :
    hbCount (runLoop 0 ⟨0, NodeState.init⟩
        (List.replicate 2 0 ++ (List.replicate 3 1 ++ List.replicate 3 2))).node = 2 :=
  (c9_two_heartbeats 2 3 3 (by norm_num) (by norm_num)).2.1

end UltrasoundNode
